import Mathlib

/-!
Shallow embedding of the Campaign Dispatch & Delivery-Tracking Engine of the
Whatsapp-Automation-Tool repository.

Sources embedded:
  * src/api/routes/whatsapp.ts — campaign creation (POST /broadcast, lines
    237-258), the dispatch loop (processRealBroadcast, lines 280-409) and the
    acknowledgement reconciler (global onMessageStatusUpdate, lines 12-53);
  * src/source/client.ts — the message_ack handler (lines 107-137) mapping raw
    ack levels to status strings, and the readiness helpers isClientReady /
    waitForClient (lines 140-160);
  * src/source/message-tracker.ts — the independent message_ack handler (lines
    6-31) feeding messageStatusDb.

Modelling conventions: JavaScript strings are Lean String (the JS-falsy empty
string plays the role of missing values); timestamps, console logging and the
WebSocket emissions are elided (no claim mentions them); message-text
personalization (whatsapp.ts lines 342-348) is elided because no claim
concerns message content, only the send address.  The effects of one
dispatch-loop iteration that the claims observe are captured as: the mutated
campaign, the mutated process-wide messageRecipientMap, and a trace of send
calls and sleeps.  The outcome of the two throwing operations inside the
per-recipient try block (the isClientReady guard at line 351 and
client.sendMessage at line 358) is supplied by an oracle, one value per
recipient index.
-/

namespace WhatsAppTool

/-- Recipient status strings used by the campaign system
('pending' | 'sent' | 'delivered' | 'read' | 'failed'). -/
inductive RStatus
  | pending
  | sent
  | delivered
  | read
  | failed
  deriving DecidableEq, BEq, Repr, Inhabited

/-- Campaign status strings reachable in processRealBroadcast
('running' | 'completed' | 'failed'). -/
inductive CStatus
  | running
  | completed
  | failed
  deriving DecidableEq, BEq, Repr, Inhabited

/-- Extract of a contact record: the fields read by the dispatch loop and by
the recipient lookup (name, phone).  Other contact fields are only used for
message personalization, which no claim observes. -/
structure Contact where
  name : String
  phone : String
  deriving DecidableEq, BEq, Repr, Inhabited

/-- Recipient sub-record of a campaign (whatsapp.ts lines 245-253), without
the timestamp field. -/
structure Recipient where
  name : String
  phone : String
  status : RStatus
  error : Option String
  messageId : Option String
  deriving DecidableEq, BEq, Repr, Inhabited

/-- Campaign progress object (whatsapp.ts line 244). -/
structure Progress where
  sent : Nat
  failed : Nat
  total : Nat
  errors : List String
  deriving DecidableEq, BEq, Repr, Inhabited

/-- Campaign aggregate (whatsapp.ts lines 238-256), restricted to the fields
the claims observe. -/
structure Campaign where
  id : String
  status : CStatus
  progress : Progress
  recipients : List Recipient
  deriving DecidableEq, BEq, Repr, Inhabited

/-- Value stored in the process-wide messageRecipientMap
(whatsapp.ts lines 372-376). -/
structure MsgInfo where
  campaignId : String
  recipientPhone : String
  recipientName : String
  deriving DecidableEq, BEq, Repr, Inhabited

/-- The process-wide messageRecipientMap.  Map.set is modelled by prepending:
lookup returns the most recent binding, as with a JS Map. -/
abbrev MsgMap := List (String × MsgInfo)

/-- Lookup in the messageRecipientMap (messageMap.get, first binding wins). -/
def lookupMsg : MsgMap → String → Option MsgInfo
  | [], _ => none
  | (k, v) :: m, i => if k = i then some v else lookupMsg m i

/-- Replace the first element satisfying the test, leaving the rest unchanged.
This models mutating through the reference returned by Array.prototype.find. -/
def updateFirst (p : α → Bool) (f : α → α) : List α → List α
  | [] => []
  | x :: xs => if p x then f x :: xs else x :: updateFirst p f xs

/-- Recipient-lookup test used by the reconciler (whatsapp.ts lines 27-29):
the recipient's phone equals the tracked phone or its name equals the tracked
name. -/
def recipMatches (info : MsgInfo) (r : Recipient) : Bool :=
  r.phone == info.recipientPhone || r.name == info.recipientName

/-- Acknowledgement reconciler, global onMessageStatusUpdate
(whatsapp.ts lines 12-53): if the messageId is untracked, return unchanged;
otherwise find the campaign by id and set the first phone-or-name matching
recipient's status to the given status, unconditionally. -/
def onMessageStatusUpdate (mmap : MsgMap) (camps : List Campaign)
    (messageId : String) (status : RStatus) : List Campaign :=
  match lookupMsg mmap messageId with
  | none => camps
  | some info =>
      updateFirst (fun c => c.id == info.campaignId)
        (fun c =>
          { c with
            recipients :=
              updateFirst (recipMatches info)
                (fun r => { r with status := status }) c.recipients })
        camps

/-- Ack-level to status mapping of the message_ack handler in client.ts
(line 117): 4 ↦ read, 3 ↦ delivered, 2 ↦ sent, anything else ↦ pending. -/
def ackStatus (ack : Nat) : RStatus :=
  if ack = 4 then .read
  else if ack = 3 then .delivered
  else if ack = 2 then .sent
  else .pending

/-- Full path of one raw acknowledgement event: the client.ts message_ack
handler (lines 107-137) maps the ack level through ackStatus and invokes the
global onMessageStatusUpdate with the resulting status.  (The handler also
records the status in the messageStatusUpdates map, which no claim observes.) -/
def handleMessageAck (mmap : MsgMap) (camps : List Campaign)
    (messageId : String) (ack : Nat) : List Campaign :=
  onMessageStatusUpdate mmap camps messageId (ackStatus ack)

/-- Ack-level to status-string mapping of the independent message_ack handler
in message-tracker.ts (lines 22-25): 1 ↦ delivered, 2 ↦ read, 3 ↦ played,
anything else ↦ sent. -/
def trackerStatus (ack : Nat) : String :=
  if ack = 1 then "delivered"
  else if ack = 2 then "read"
  else if ack = 3 then "played"
  else "sent"

/-- Status of the first recipient of the first campaign in a registry;
convenience observer for single-campaign, single-recipient configurations. -/
def firstRecipientStatus : List Campaign → Option RStatus
  | [] => none
  | c :: _ =>
      match c.recipients with
      | [] => none
      | r :: _ => some r.status

/-- One-campaign, one-recipient configuration whose single message "m1" is
tracked by demoMap; the recipient starts in the given status. -/
def demoCampaign (old : RStatus) : Campaign :=
  { id := "c1"
    status := .running
    progress := { sent := 1, failed := 0, total := 1, errors := [] }
    recipients :=
      [{ name := "A", phone := "911234567890", status := old,
         error := none, messageId := some "m1" }] }

/-- Reconciliation index tracking message "m1" for demoCampaign. -/
def demoMap : MsgMap :=
  [("m1", { campaignId := "c1", recipientPhone := "911234567890",
            recipientName := "A" })]

/-! ### Dispatch loop (processRealBroadcast, whatsapp.ts lines 280-409) -/

/-- Oracle value for the throwing operations of one loop iteration: either
the pre-send readiness guard throws (isClientReady() false at line 351), or
client.sendMessage throws with a message, or it succeeds and returns the
serialized provider message id. -/
inductive SendOutcome
  | notReady
  | sendError (msg : String)
  | ok (messageId : String)
  deriving DecidableEq, BEq, Repr, Inhabited

/-- Observable transport interaction of the loop: an attempted sendMessage
call with its chat id, or a setTimeout sleep in milliseconds. -/
inductive Event
  | sendCall (chatId : String)
  | sleep (ms : Nat)
  deriving DecidableEq, BEq, Repr, Inhabited

/-- Digit cleaning of a phone number: contact.phone.replace of every
non-digit with nothing (whatsapp.ts line 307). -/
def cleanDigits (s : String) : String :=
  ⟨s.data.filter Char.isDigit⟩

/-- Country-code completion (whatsapp.ts lines 322-324): a 10-digit number
gets the India country code 91 prepended. -/
def addCountryCode (d : String) : String :=
  if d.length = 10 then "91" ++ d else d

/-- Display name stored on the recipient record: contact.name with the JS
falsy default 'Unknown' (whatsapp.ts line 246). -/
def mkName (c : Contact) : String :=
  if c.name = "" then "Unknown" else c.name

/-- Recipient record created for a contact at campaign creation
(whatsapp.ts lines 245-253): status pending, no error, no message id. -/
def mkRecipient (c : Contact) : Recipient :=
  { name := mkName c
    phone := c.phone
    status := .pending
    error := none
    messageId := none }

/-- Campaign object built by POST /broadcast (whatsapp.ts lines 237-258). -/
def createCampaign (cid : String) (contacts : List Contact) : Campaign :=
  { id := cid
    status := .running
    progress := { sent := 0, failed := 0, total := contacts.length,
                  errors := [] }
    recipients := contacts.map mkRecipient }

/-- Recipient-lookup test of the dispatch loop (whatsapp.ts lines 301-303):
recipient phone equals contact phone or recipient name equals contact name. -/
def matchesContact (c : Contact) (r : Recipient) : Bool :=
  r.phone == c.phone || r.name == c.name

/-- Index of the first list element satisfying the test
(Array.prototype.find, by position). -/
def firstMatchIdx (p : α → Bool) : List α → Option Nat
  | [] => none
  | x :: xs => if p x then some 0 else (firstMatchIdx p xs).map (· + 1)

/-- Index of the recipient the dispatch loop will mutate for a contact. -/
def findRecipientIdx (rs : List Recipient) (c : Contact) : Option Nat :=
  firstMatchIdx (matchesContact c) rs

/-- Apply a function to the element at an index, if present. -/
def modifyAt : List α → Nat → (α → α) → List α
  | [], _, _ => []
  | x :: xs, 0, f => f x :: xs
  | x :: xs, n + 1, f => x :: modifyAt xs n f

/-- Mutation through the possibly-undefined recipient reference: when the
lookup found an index, modify that recipient; otherwise leave the list as is
(the source guards every recipient mutation with `if (recipient)`). -/
def markRecipient (rs : List Recipient) (ridx : Option Nat)
    (f : Recipient → Recipient) : List Recipient :=
  match ridx with
  | none => rs
  | some i => modifyAt rs i f

/-- Failure bookkeeping shared by all failure branches of one iteration:
progress.failed is incremented, a line is pushed onto progress.errors, and
the found recipient (if any) is marked failed with the per-recipient error
text. -/
def markFailure (camp : Campaign) (ridx : Option Nat)
    (logLine recipErr : String) : Campaign :=
  { camp with
    progress :=
      { camp.progress with
        failed := camp.progress.failed + 1
        errors := camp.progress.errors ++ [logLine] }
    recipients :=
      markRecipient camp.recipients ridx
        (fun r => { r with status := .failed, error := some recipErr }) }

/-- One iteration of the for-loop of processRealBroadcast (whatsapp.ts lines
297-397) for one contact, given the oracle outcome of its throwing
operations.  Returns the mutated campaign, the mutated messageRecipientMap
and the transport-interaction trace of the iteration. -/
def processContact (cid : String) (camp : Campaign) (mmap : MsgMap)
    (contact : Contact) (outcome : SendOutcome) :
    Campaign × MsgMap × List Event :=
  let ridx := findRecipientIdx camp.recipients contact
  let d := cleanDigits contact.phone
  if d.length = 0 then
    (markFailure camp ridx ("No phone number for " ++ contact.name)
       "No phone number provided", mmap, [])
  else
    let p := addCountryCode d
    if p.length < 12 ∨ p.length > 15 then
      (markFailure camp ridx
         ("Invalid phone number for " ++ contact.name ++ ": " ++
            contact.phone)
         ("Invalid phone number: " ++ contact.phone), mmap, [])
    else
      let chatId := p ++ "@c.us"
      match outcome with
      | .notReady =>
          (markFailure camp ridx
             ("Failed to send to " ++ contact.name ++
                ": Error: WhatsApp client disconnected during broadcast")
             "WhatsApp client disconnected during broadcast", mmap, [])
      | .sendError e =>
          (markFailure camp ridx
             ("Failed to send to " ++ contact.name ++ ": Error: " ++ e)
             e, mmap, [.sendCall chatId])
      | .ok mid =>
          ({ camp with
             progress := { camp.progress with sent := camp.progress.sent + 1 }
             recipients :=
               markRecipient camp.recipients ridx
                 (fun r =>
                   { r with status := .sent, error := none,
                            messageId := some mid }) },
           (match ridx with
            | some _ =>
                (mid, { campaignId := cid, recipientPhone := contact.phone,
                        recipientName := contact.name }) :: mmap
            | none => mmap),
           [.sendCall chatId, .sleep 3000])

/-- The for-loop of processRealBroadcast over the remaining contacts, with i
the index of the first remaining contact and the oracle indexed by contact
position. -/
def dispatchLoop (cid : String) (outcome : Nat → SendOutcome) :
    Nat → List Contact → Campaign → MsgMap → Campaign × MsgMap × List Event
  | _, [], camp, mmap => (camp, mmap, [])
  | i, c :: cs, camp, mmap =>
      let r1 := processContact cid camp mmap c (outcome i)
      let r2 := dispatchLoop cid outcome (i + 1) cs r1.1 r1.2.1
      (r2.1, r2.2.1, r1.2.2 ++ r2.2.2)

/-- Whole body of processRealBroadcast (whatsapp.ts lines 280-409).
readyAtStart models isClientReady() at entry (line 291); readyWithinTimeout
models waitForClient(60000) resolving within its 60-second bound (line 293).
When neither holds, waitForClient rejects, the outer catch runs and the
campaign status becomes failed with nothing else mutated; otherwise the loop
runs to the end and the campaign status becomes completed. -/
def processRealBroadcast (cid : String) (camp : Campaign) (mmap : MsgMap)
    (contacts : List Contact) (outcome : Nat → SendOutcome)
    (readyAtStart readyWithinTimeout : Bool) :
    Campaign × MsgMap × List Event :=
  if !readyAtStart && !readyWithinTimeout then
    ({ camp with status := .failed }, mmap, [])
  else
    let r := dispatchLoop cid outcome 0 contacts camp mmap
    ({ r.1 with status := .completed }, r.2.1, r.2.2)

/-! ### Derived notions used to state the claims -/

/-- Number of recipients whose status is pending. -/
def pendingCount (rs : List Recipient) : Nat :=
  (rs.filter (fun r => r.status == .pending)).length

/-- The progress invariant of the specification:
sent + failed + pending = total, where pending counts the recipients whose
status is pending. -/
def invariantHolds (camp : Campaign) : Prop :=
  camp.progress.sent + camp.progress.failed +
    pendingCount camp.recipients = camp.progress.total

instance (camp : Campaign) : Decidable (invariantHolds camp) := by
  unfold invariantHolds; infer_instance

/-- Validity of a contact's address under the loop's normalization: the digit
string is non-empty and, after country-code completion, between 12 and 15
digits long. -/
def validAddress (c : Contact) : Bool :=
  let d := cleanDigits c.phone
  if d.length = 0 then false
  else if (addCountryCode d).length < 12 ∨ (addCountryCode d).length > 15 then
    false
  else true

/-- Test of whether one iteration performs a successful send: the address is
valid and the oracle reports sendMessage succeeding. -/
def sendSucceeded (c : Contact) (o : SendOutcome) : Bool :=
  validAddress c &&
    (match o with
     | .ok _ => true
     | _ => false)

/-- Number of successful sends among the contacts, starting at index i. -/
def successCount (outcome : Nat → SendOutcome) : Nat → List Contact → Nat
  | _, [] => 0
  | i, c :: cs =>
      (if sendSucceeded c (outcome i) then 1 else 0) +
        successCount outcome (i + 1) cs

/-- Number of failed iterations among the contacts, starting at index i. -/
def failCount (outcome : Nat → SendOutcome) : Nat → List Contact → Nat
  | _, [] => 0
  | i, c :: cs =>
      (if sendSucceeded c (outcome i) then 0 else 1) +
        failCount outcome (i + 1) cs

/-- Value of a contact's own recipient record after its loop iteration,
when the lookup found that record: failed with the branch-specific error on
an empty or invalid address or a throwing send, sent with the provider
message id on success. -/
def stepRecipient (c : Contact) (o : SendOutcome) : Recipient :=
  let d := cleanDigits c.phone
  if d.length = 0 then
    { mkRecipient c with
      status := .failed
      error := some "No phone number provided" }
  else if (addCountryCode d).length < 12 ∨ (addCountryCode d).length > 15 then
    { mkRecipient c with
      status := .failed
      error := some ("Invalid phone number: " ++ c.phone) }
  else
    match o with
    | .notReady =>
        { mkRecipient c with
          status := .failed
          error := some "WhatsApp client disconnected during broadcast" }
    | .sendError e =>
        { mkRecipient c with status := .failed, error := some e }
    | .ok mid =>
        { mkRecipient c with
          status := .sent
          error := none
          messageId := some mid }

/-- Recipient records of a contact list after all their iterations,
indexed from i. -/
def stepRecipients (outcome : Nat → SendOutcome) :
    Nat → List Contact → List Recipient
  | _, [] => []
  | i, c :: cs =>
      stepRecipient c (outcome i) :: stepRecipients outcome (i + 1) cs

/-- Distinct-identity condition on a contact list: no contact's phone or name
coincides with the phone or stored display name of an earlier contact's
recipient record, so the first-match lookup of the loop resolves every
contact to its own recipient. -/
def DistinctKeys (contacts : List Contact) : Prop :=
  List.Pairwise (fun a b => matchesContact b (mkRecipient a) = false) contacts

instance (contacts : List Contact) : Decidable (DistinctKeys contacts) := by
  unfold DistinctKeys
  infer_instance

/-- Test for a sleep event. -/
def isSleepEvent : Event → Bool
  | .sleep _ => true
  | .sendCall _ => false

/-- Full broadcast flow on a freshly created campaign with the transport
ready: campaign creation by POST /broadcast followed by processRealBroadcast. -/
def fullRun (cid : String) (contacts : List Contact) (mmap : MsgMap)
    (outcome : Nat → SendOutcome) : Campaign × MsgMap × List Event :=
  processRealBroadcast cid (createCampaign cid contacts) mmap contacts
    outcome true true

/-- Scenario with one valid contact whose send succeeds with message id m1. -/
def soloContacts : List Contact := [{ name := "A", phone := "9876543210" }]

/-- Oracle for runs where every send succeeds with message id m1. -/
def soloOutcome : Nat → SendOutcome := fun _ => .ok "m1"

/-- Result of broadcasting to the single valid contact. -/
def soloRun : Campaign × MsgMap × List Event :=
  fullRun "c1" soloContacts [] soloOutcome

/-- Scenario with two contacts sharing the display name A, the second of
which has an empty phone. -/
def dupNameContacts : List Contact :=
  [{ name := "A", phone := "9876543210" }, { name := "A", phone := "" }]

/-- Scenario with two contacts sharing the display name A, both with empty
phones. -/
def dupEmptyContacts : List Contact :=
  [{ name := "A", phone := "" }, { name := "A", phone := "" }]

/-- Scenario of spec Testable-Property B: three contacts with distinct
identities, the second having an empty phone. -/
def scenarioBContacts : List Contact :=
  [{ name := "A", phone := "9876543210" },
   { name := "B", phone := "" },
   { name := "C", phone := "9876543211" }]

/-! ### Helper lemmas about the dispatch loop -/

theorem matchesContact_self (c : Contact) :
    matchesContact c (mkRecipient c) = true := by
  simp [matchesContact, mkRecipient]

theorem stepRecipient_phone (c : Contact) (o : SendOutcome) :
    (stepRecipient c o).phone = c.phone := by
  cases o <;> by_cases h1 : (cleanDigits c.phone).length = 0 <;>
    by_cases h2 : (addCountryCode (cleanDigits c.phone)).length < 12 ∨
      (addCountryCode (cleanDigits c.phone)).length > 15 <;>
    simp [stepRecipient, mkRecipient, h1, h2]

theorem stepRecipient_name (c : Contact) (o : SendOutcome) :
    (stepRecipient c o).name = mkName c := by
  cases o <;> by_cases h1 : (cleanDigits c.phone).length = 0 <;>
    by_cases h2 : (addCountryCode (cleanDigits c.phone)).length < 12 ∨
      (addCountryCode (cleanDigits c.phone)).length > 15 <;>
    simp [stepRecipient, mkRecipient, h1, h2]

theorem matchesContact_stepRecipient (x c : Contact) (o : SendOutcome) :
    matchesContact x (stepRecipient c o) = matchesContact x (mkRecipient c) := by
  simp [matchesContact, stepRecipient_phone, stepRecipient_name, mkRecipient]

theorem stepRecipient_status (c : Contact) (o : SendOutcome) :
    (stepRecipient c o).status
      = (if sendSucceeded c o then RStatus.sent else RStatus.failed) := by
  cases o <;> by_cases h1 : (cleanDigits c.phone).length = 0 <;>
    by_cases h2 : (addCountryCode (cleanDigits c.phone)).length < 12 ∨
      (addCountryCode (cleanDigits c.phone)).length > 15 <;>
    simp [stepRecipient, sendSucceeded, validAddress, h1, h2]

theorem stepRecipient_invalid (c : Contact) (o : SendOutcome)
    (h : validAddress c = false) :
    (stepRecipient c o).status = .failed ∧
    ((stepRecipient c o).error = some "No phone number provided" ∨
     (stepRecipient c o).error
       = some ("Invalid phone number: " ++ c.phone)) := by
  by_cases h1 : (cleanDigits c.phone).length = 0
  · simp [stepRecipient, h1]
  · by_cases h2 : (addCountryCode (cleanDigits c.phone)).length < 12 ∨
        (addCountryCode (cleanDigits c.phone)).length > 15
    · simp [stepRecipient, h1, h2]
    · simp [validAddress, h1, h2] at h

theorem firstMatchIdx_append_cons (p : α → Bool) :
    ∀ (l1 : List α) (x : α) (l2 : List α),
      (∀ r ∈ l1, p r = false) → p x = true →
      firstMatchIdx p (l1 ++ x :: l2) = some l1.length
  | [], x, l2, _, hx => by simp [firstMatchIdx, hx]
  | a :: l1, x, l2, hall, hx => by
      have ha : p a = false := hall a (List.mem_cons_self a l1)
      have ih := firstMatchIdx_append_cons p l1 x l2
        (fun r hr => hall r (List.mem_cons_of_mem a hr)) hx
      simp [firstMatchIdx, ha, ih]

theorem firstMatchIdx_lt_length (p : α → Bool) :
    ∀ (l : List α) (j : Nat), firstMatchIdx p l = some j → j < l.length
  | [], j, h => by simp [firstMatchIdx] at h
  | a :: l, j, h => by
      cases hpa : p a with
      | true =>
          rw [firstMatchIdx, if_pos hpa] at h
          simp at h
          simp only [List.length_cons]
          omega
      | false =>
          rw [firstMatchIdx, if_neg (by simp [hpa])] at h
          simp [Option.map_eq_some'] at h
          obtain ⟨j', hj', rfl⟩ := h
          have := firstMatchIdx_lt_length p l j' hj'
          simp
          omega

theorem modifyAt_append_cons (l1 : List α) (x : α) (l2 : List α)
    (f : α → α) :
    modifyAt (l1 ++ x :: l2) l1.length f = l1 ++ f x :: l2 := by
  induction l1 with
  | nil => rfl
  | cons a l1 ih => simp [modifyAt, ih]

theorem modifyAt_getElem_self (f : α → α) :
    ∀ (l : List α) (j : Nat), (modifyAt l j f)[j]? = (l[j]?).map f
  | [], j => by simp [modifyAt]
  | a :: l, 0 => by simp [modifyAt]
  | a :: l, j + 1 => by
      simp [modifyAt, modifyAt_getElem_self f l j]

theorem pendingCount_append (l1 l2 : List Recipient) :
    pendingCount (l1 ++ l2) = pendingCount l1 + pendingCount l2 := by
  simp [pendingCount, List.filter_append]

theorem pendingCount_cons (r : Recipient) (rs : List Recipient) :
    pendingCount (r :: rs)
      = (if r.status == RStatus.pending then 1 else 0) + pendingCount rs := by
  simp [pendingCount, List.filter_cons]
  split <;> simp <;> omega

theorem pendingCount_map_mkRecipient (l : List Contact) :
    pendingCount (l.map mkRecipient) = l.length := by
  induction l with
  | nil => rfl
  | cons c l ih =>
      have hc : ((mkRecipient c).status == RStatus.pending) = true := rfl
      simp [pendingCount_cons, hc, ih]
      omega

theorem pendingCount_stepRecipients (outcome : Nat → SendOutcome) :
    ∀ (i : Nat) (cs : List Contact),
      pendingCount (stepRecipients outcome i cs) = 0
  | _, [] => rfl
  | i, c :: cs => by
      have hne : ((stepRecipient c (outcome i)).status == RStatus.pending)
          = false := by
        rw [stepRecipient_status]
        split <;> rfl
      have ih := pendingCount_stepRecipients outcome (i + 1) cs
      simp [stepRecipients, pendingCount_cons, hne, ih]

theorem successCount_add_failCount (outcome : Nat → SendOutcome) :
    ∀ (i : Nat) (cs : List Contact),
      successCount outcome i cs + failCount outcome i cs = cs.length
  | _, [] => rfl
  | i, c :: cs => by
      have ih := successCount_add_failCount outcome (i + 1) cs
      by_cases h : sendSucceeded c (outcome i) = true
      · simp [successCount, failCount, h]
        omega
      · simp [successCount, failCount, h]
        omega

theorem stepRecipients_getElem (outcome : Nat → SendOutcome) :
    ∀ (cs : List Contact) (i j : Nat),
      (stepRecipients outcome i cs)[j]?
        = (cs[j]?).map (fun c => stepRecipient c (outcome (i + j)))
  | [], i, j => by simp [stepRecipients]
  | c :: cs, i, 0 => by simp [stepRecipients]
  | c :: cs, i, j + 1 => by
      have ih := stepRecipients_getElem outcome cs (i + 1) j
      simp [stepRecipients, ih]
      rw [show i + 1 + j = i + (j + 1) by omega]

/-- Characterization of one loop iteration when the recipient lookup resolves
to the contact's own pristine record: the record becomes stepRecipient,
exactly one of progress.sent / progress.failed is incremented, and total and
campaign status are untouched. -/
theorem processContact_found (cid : String) (camp : Campaign) (mmap : MsgMap)
    (c : Contact) (o : SendOutcome) (done rest : List Recipient)
    (hrec : camp.recipients = done ++ mkRecipient c :: rest)
    (hdone : ∀ r ∈ done, matchesContact c r = false) :
    (processContact cid camp mmap c o).1.recipients
        = done ++ stepRecipient c o :: rest ∧
    (processContact cid camp mmap c o).1.progress.sent
        = camp.progress.sent + (if sendSucceeded c o then 1 else 0) ∧
    (processContact cid camp mmap c o).1.progress.failed
        = camp.progress.failed + (if sendSucceeded c o then 0 else 1) ∧
    (processContact cid camp mmap c o).1.progress.total
        = camp.progress.total ∧
    (processContact cid camp mmap c o).1.status = camp.status := by
  have hfind : findRecipientIdx camp.recipients c = some done.length := by
    rw [hrec]
    exact firstMatchIdx_append_cons _ done _ rest hdone (matchesContact_self c)
  have hmark : ∀ f : Recipient → Recipient,
      markRecipient camp.recipients (findRecipientIdx camp.recipients c) f
        = done ++ f (mkRecipient c) :: rest := by
    intro f
    rw [hfind, markRecipient, hrec, modifyAt_append_cons]
  by_cases h1 : (cleanDigits c.phone).length = 0
  · refine ⟨?_, ?_, ?_, ?_, ?_⟩ <;>
      simp [processContact, h1, markFailure, hmark, stepRecipient,
        sendSucceeded, validAddress]
  · by_cases h2 : (addCountryCode (cleanDigits c.phone)).length < 12 ∨
        (addCountryCode (cleanDigits c.phone)).length > 15
    · refine ⟨?_, ?_, ?_, ?_, ?_⟩ <;>
        simp [processContact, h1, h2, markFailure, hmark, stepRecipient,
          sendSucceeded, validAddress]
    · cases o <;>
        · refine ⟨?_, ?_, ?_, ?_, ?_⟩ <;>
            simp [processContact, h1, h2, markFailure, hmark, stepRecipient,
              sendSucceeded, validAddress]

/-- Characterization of the dispatch loop when the pending part of the
recipient list lines up with the remaining contacts and neither the already
processed records nor duplicate identities can capture a later contact's
lookup: every remaining contact updates exactly its own record. -/
theorem dispatchLoop_spec (cid : String) (outcome : Nat → SendOutcome)
    (todo : List Contact) :
    ∀ (i : Nat) (done tail : List Recipient) (camp : Campaign)
      (mmap : MsgMap),
      camp.recipients = done ++ todo.map mkRecipient ++ tail →
      (∀ c ∈ todo, ∀ r ∈ done, matchesContact c r = false) →
      List.Pairwise (fun a b => matchesContact b (mkRecipient a) = false)
        todo →
      (dispatchLoop cid outcome i todo camp mmap).1.recipients
          = done ++ stepRecipients outcome i todo ++ tail ∧
      (dispatchLoop cid outcome i todo camp mmap).1.progress.sent
          = camp.progress.sent + successCount outcome i todo ∧
      (dispatchLoop cid outcome i todo camp mmap).1.progress.failed
          = camp.progress.failed + failCount outcome i todo ∧
      (dispatchLoop cid outcome i todo camp mmap).1.progress.total
          = camp.progress.total ∧
      (dispatchLoop cid outcome i todo camp mmap).1.status = camp.status := by
  induction todo with
  | nil =>
      intro i done tail camp mmap h1 _ _
      simp [dispatchLoop, stepRecipients, successCount, failCount, h1]
  | cons c cs ih =>
      intro i done tail camp mmap h1 h2 h3
      have hrec : camp.recipients
          = done ++ mkRecipient c :: (cs.map mkRecipient ++ tail) := by
        simpa [List.map_cons, List.append_assoc] using h1
      have hdone : ∀ r ∈ done, matchesContact c r = false :=
        fun r hr => h2 c (List.mem_cons_self c cs) r hr
      obtain ⟨e1, e2, e3, e4, e5⟩ :=
        processContact_found cid camp mmap c (outcome i) done
          (cs.map mkRecipient ++ tail) hrec hdone
      have hpair := List.pairwise_cons.mp h3
      have h1' : (processContact cid camp mmap c (outcome i)).1.recipients
          = (done ++ [stepRecipient c (outcome i)]) ++ cs.map mkRecipient
              ++ tail := by
        rw [e1]
        simp [List.append_assoc]
      have h2' : ∀ c' ∈ cs, ∀ r ∈ done ++ [stepRecipient c (outcome i)],
          matchesContact c' r = false := by
        intro c' hc' r hr
        rcases List.mem_append.mp hr with h | h
        · exact h2 c' (List.mem_cons_of_mem c hc') r h
        · have hre : r = stepRecipient c (outcome i) := by simpa using h
          subst hre
          rw [matchesContact_stepRecipient]
          exact hpair.1 c' hc'
      obtain ⟨f1, f2, f3, f4, f5⟩ :=
        ih (i + 1) (done ++ [stepRecipient c (outcome i)]) tail
          (processContact cid camp mmap c (outcome i)).1
          (processContact cid camp mmap c (outcome i)).2.1 h1' h2' hpair.2
      refine ⟨?_, ?_, ?_, ?_, ?_⟩
      · simp only [dispatchLoop]
        rw [f1]
        simp [stepRecipients, List.append_assoc]
      · simp only [dispatchLoop]
        rw [f2, e2, Nat.add_assoc]
        simp [successCount]
      · simp only [dispatchLoop]
        rw [f3, e3, Nat.add_assoc]
        simp [failCount]
      · simp only [dispatchLoop]
        rw [f4, e4]
      · simp only [dispatchLoop]
        rw [f5, e5]

/-- Sleep events of one iteration: exactly one 3000 ms sleep when the send
succeeded, none otherwise. -/
theorem processContact_sleeps (cid : String) (camp : Campaign)
    (mmap : MsgMap) (c : Contact) (o : SendOutcome) :
    ((processContact cid camp mmap c o).2.2).filter isSleepEvent
      = if sendSucceeded c o then [Event.sleep 3000] else [] := by
  by_cases h1 : (cleanDigits c.phone).length = 0
  · simp [processContact, sendSucceeded, validAddress, h1]
  · by_cases h2 : (addCountryCode (cleanDigits c.phone)).length < 12 ∨
        (addCountryCode (cleanDigits c.phone)).length > 15
    · simp [processContact, sendSucceeded, validAddress, h1, h2]
    · cases o <;>
        simp [processContact, sendSucceeded, validAddress, isSleepEvent,
          h1, h2]

/-- Sleep events of the whole loop: one 3000 ms sleep per successful send. -/
theorem dispatchLoop_sleeps (cid : String) (outcome : Nat → SendOutcome)
    (todo : List Contact) :
    ∀ (i : Nat) (camp : Campaign) (mmap : MsgMap),
      ((dispatchLoop cid outcome i todo camp mmap).2.2).filter isSleepEvent
        = List.replicate (successCount outcome i todo) (Event.sleep 3000) := by
  induction todo with
  | nil => intro i camp mmap; simp [dispatchLoop, successCount]
  | cons c cs ih =>
      intro i camp mmap
      simp only [dispatchLoop]
      rw [List.filter_append, processContact_sleeps, ih]
      by_cases h : sendSucceeded c (outcome i) = true
      · simp [successCount, h]
        rw [Nat.add_comm 1, List.replicate_succ]
      · simp [successCount, h]

/-! ### Claim theorems -/

/-- C2 counterexample: the reconciler has no monotonic guard.  In a tracked
one-recipient campaign whose recipient has status read, an acknowledgement at
level 3 (which client.ts maps to delivered) overwrites the status, producing
the transition read → delivered that the claim rules out. -/
theorem c2_counterexample :
    firstRecipientStatus [demoCampaign .read] = some .read ∧
    firstRecipientStatus
        (handleMessageAck demoMap [demoCampaign .read] "m1" 3)
      = some .delivered := by
  decide

/-- C2 (amended): recipient status transitions are not monotonic.  For a
tracked message, the reconciler overwrites the matched recipient's status
with the ack-derived status regardless of the previous status, so
read → delivered, delivered → sent and any state → pending (ack level ≤ 1)
all occur, and failed is not terminal under acknowledgements either. -/
theorem c2_status_overwritten (old : RStatus) (ack : Nat) :
    firstRecipientStatus
        (handleMessageAck demoMap [demoCampaign old] "m1" ack)
      = some (ackStatus ack) := by
  rfl

/-- C3 counterexample: the reconciler does not map ack level 1 to sent,
2 to delivered and 3 to read.  client.ts maps 1 to pending, 2 to sent and
3 to delivered (4 is read), and message-tracker.ts maps 1 to the string
delivered; applying a level-1 acknowledgement to a tracked sent recipient
moves it to pending, not sent. -/
theorem c3_counterexample :
    ackStatus 1 = .pending ∧ ackStatus 2 = .sent ∧
    ackStatus 3 = .delivered ∧ trackerStatus 1 = "delivered" ∧
    firstRecipientStatus
        (handleMessageAck demoMap [demoCampaign .sent] "m1" 1)
      = some .pending := by
  decide

/-- C3 (amended): the campaign reconciler maps ack level 2 to sent
(server ack), 3 to delivered (device ack) and 4 to read, applying the mapped
status to the tracked recipient unconditionally; level 1 maps to pending. -/
theorem c3_ack_mapping (old : RStatus) :
    firstRecipientStatus
        (handleMessageAck demoMap [demoCampaign old] "m1" 2) = some .sent ∧
    firstRecipientStatus
        (handleMessageAck demoMap [demoCampaign old] "m1" 3) = some .delivered ∧
    firstRecipientStatus
        (handleMessageAck demoMap [demoCampaign old] "m1" 4) = some .read ∧
    firstRecipientStatus
        (handleMessageAck demoMap [demoCampaign old] "m1" 1) = some .pending := by
  exact ⟨rfl, rfl, rfl, rfl⟩

/-- C4 counterexample: delivering ack level 3 and then ack level 2 for the
same tracked message does not leave the recipient read, and the later event
is not a no-op: the second acknowledgement changes the registry, and the
final status is sent (client.ts maps 3 to delivered and 2 to sent). -/
theorem c4_counterexample :
    handleMessageAck demoMap
        (handleMessageAck demoMap [demoCampaign .sent] "m1" 3) "m1" 2
      ≠ handleMessageAck demoMap [demoCampaign .sent] "m1" 3 ∧
    firstRecipientStatus
        (handleMessageAck demoMap
          (handleMessageAck demoMap [demoCampaign .sent] "m1" 3) "m1" 2)
      = some .sent := by
  decide

/-- C4 (amended): acknowledgement application is last-writer-wins.  For a
tracked message, after delivering ack level a and then ack level b, the
recipient's status is the one derived from b; in particular delivering 3 then
2 leaves the recipient sent, not read, and the later event is not a no-op. -/
theorem c4_later_ack_overwrites (old : RStatus) (a b : Nat) :
    firstRecipientStatus
        (handleMessageAck demoMap
          (handleMessageAck demoMap [demoCampaign old] "m1" a) "m1" b)
      = some (ackStatus b) := by
  rfl

/-- C5: when the transport is not ready at dispatch start and does not become
ready within the 60-second bounded wait, waitForClient rejects, the campaign
status becomes failed, and every recipient of the freshly created campaign
keeps status pending (none is marked failed). -/
theorem c5_transport_unavailable (cid : String) (contacts : List Contact)
    (mmap : MsgMap) (outcome : Nat → SendOutcome) :
    (processRealBroadcast cid (createCampaign cid contacts) mmap contacts
        outcome false false).1.status = .failed ∧
    ((processRealBroadcast cid (createCampaign cid contacts) mmap contacts
        outcome false false).1.recipients.all
      fun r => r.status == .pending) = true := by
  constructor
  · rfl
  · show ((contacts.map mkRecipient).all fun r => r.status == .pending) = true
    simp [List.all_map, Function.comp, mkRecipient]
    intro a _
    rfl

/-- C7: an acknowledgement whose messageId is absent from the reconciliation
index leaves the whole campaign registry unchanged (the handler returns
before touching any campaign; being a total function, it raises nothing). -/
theorem c7_untracked_ack_noop (mmap : MsgMap) (camps : List Campaign)
    (messageId : String) (ack : Nat)
    (h : lookupMsg mmap messageId = none) :
    handleMessageAck mmap camps messageId ack = camps := by
  unfold handleMessageAck onMessageStatusUpdate
  rw [h]

/-- C7 witness: an empty index with a concrete registry and a concrete
untracked acknowledgement. -/
theorem c7_untracked_ack_noop_witness :
    handleMessageAck [] [demoCampaign .sent] "m2" 3 = [demoCampaign .sent] :=
  c7_untracked_ack_noop [] [demoCampaign .sent] "m2" 3 rfl

/-- C1 counterexample: the progress equation sent + failed + pending = total
holds right after the dispatch of the one-recipient campaign, but a level-1
acknowledgement for its tracked message resets the recipient to pending
while progress.sent stays 1, breaking the equation; and a dispatch over two
contacts sharing a display name, both with empty phones, double-marks the
first recipient and leaves the second pending, also breaking the equation. -/
theorem c1_counterexample :
    invariantHolds soloRun.1 ∧
    ¬ invariantHolds
        ((handleMessageAck soloRun.2.1 [soloRun.1] "m1" 1).headI) ∧
    ¬ invariantHolds (fullRun "c3" dupEmptyContacts [] soloOutcome).1 := by
  decide

/-- C6 counterexample: with two contacts sharing the display name A, the
second having an empty phone, the first-match recipient lookup resolves the
second contact to the first recipient: after dispatch the recipient with the
empty address is still pending (not failed), while the successfully sent
first recipient has been overwritten to failed; the campaign completes. -/
theorem c6_counterexample :
    ((fullRun "c2" dupNameContacts [] soloOutcome).1.recipients.map
        Recipient.status) = [.failed, .pending] ∧
    (fullRun "c2" dupNameContacts [] soloOutcome).1.status = .completed := by
  decide

/-- C9 counterexample: the inter-message delay is not skipped after the last
recipient.  Broadcasting to a single valid contact whose send succeeds ends
with a 3000 ms sleep after the send call. -/
theorem c9_counterexample :
    soloRun.2.2 = [.sendCall "919876543210@c.us", .sleep 3000] ∧
    soloRun.2.2.getLast? = some (.sleep 3000) := by
  decide

/-- C1 (amended): the progress equation sent + failed + pending = total
holds at campaign creation and after every dispatch-loop step (state after
processing the first k contacts), provided the campaign's contacts have
pairwise-distinct lookup identities (no contact's phone or name collides with
an earlier recipient record, so the first-match lookup resolves each contact
to its own record); total is fixed at creation.  Acknowledgement application
is excluded: a level-1 acknowledgement resets a recipient to pending and
breaks the equation, as the counterexample shows. -/
theorem c1_invariant (cid : String) (contacts : List Contact)
    (mmap : MsgMap) (outcome : Nat → SendOutcome) (k : Nat)
    (hd : DistinctKeys contacts) :
    invariantHolds (createCampaign cid contacts) ∧
    invariantHolds
      (dispatchLoop cid outcome 0 (contacts.take k)
        (createCampaign cid contacts) mmap).1 := by
  constructor
  · simp [invariantHolds, createCampaign, pendingCount_map_mkRecipient]
  · have hsplit : (createCampaign cid contacts).recipients
        = [] ++ (contacts.take k).map mkRecipient
            ++ (contacts.drop k).map mkRecipient := by
      show contacts.map mkRecipient
          = [] ++ (contacts.take k).map mkRecipient
              ++ (contacts.drop k).map mkRecipient
      rw [List.nil_append, ← List.map_append, List.take_append_drop]
    have hpw : List.Pairwise
        (fun a b => matchesContact b (mkRecipient a) = false)
        (contacts.take k) :=
      List.Pairwise.sublist (List.take_sublist k contacts) hd
    obtain ⟨e1, e2, e3, e4, _⟩ :=
      dispatchLoop_spec cid outcome (contacts.take k) 0 []
        ((contacts.drop k).map mkRecipient) (createCampaign cid contacts)
        mmap hsplit (by intro x hx r hr; simp at hr) hpw
    unfold invariantHolds
    rw [e1, e2, e3, e4]
    simp only [List.nil_append, pendingCount_append,
      pendingCount_stepRecipients, pendingCount_map_mkRecipient]
    have hsf := successCount_add_failCount outcome 0 (contacts.take k)
    simp [createCampaign, List.length_take] at hsf ⊢
    omega

/-- C1 witness: a two-contact campaign with distinct identities, fully
dispatched (k = 2), satisfies the invariant at creation and after the loop. -/
theorem c1_invariant_witness :
    invariantHolds
      (createCampaign "w1"
        [{ name := "A", phone := "9876543210" },
         { name := "B", phone := "123" }]) ∧
    invariantHolds
      (dispatchLoop "w1" (fun _ => .ok "m7") 0
        ([{ name := "A", phone := "9876543210" },
          { name := "B", phone := "123" }].take 2)
        (createCampaign "w1"
          [{ name := "A", phone := "9876543210" },
           { name := "B", phone := "123" }]) []).1 :=
  c1_invariant "w1"
    [{ name := "A", phone := "9876543210" },
     { name := "B", phone := "123" }]
    [] (fun _ => .ok "m7") 2 (by decide)

/-- C6 (amended): provided the campaign's contacts have pairwise-distinct
lookup identities, a recipient with an empty or invalid address is marked
failed with the address-specific error of its branch, the loop continues
(every contact's record is updated to its own step result), and the campaign
reaches completed.  Without distinct identities the first-match lookup can
record the failure on another recipient, as the counterexample shows. -/
theorem c6_failure_isolated (cid : String) (contacts : List Contact)
    (mmap : MsgMap) (outcome : Nat → SendOutcome)
    (hd : DistinctKeys contacts)
    (i : Nat) (c : Contact) (hc : contacts[i]? = some c)
    (hbad : validAddress c = false) :
    (fullRun cid contacts mmap outcome).1.status = .completed ∧
    (∀ j c', contacts[j]? = some c' →
        (fullRun cid contacts mmap outcome).1.recipients[j]?
          = some (stepRecipient c' (outcome j))) ∧
    (fullRun cid contacts mmap outcome).1.recipients[i]?
        = some (stepRecipient c (outcome i)) ∧
    (stepRecipient c (outcome i)).status = .failed ∧
    ((stepRecipient c (outcome i)).error = some "No phone number provided" ∨
     (stepRecipient c (outcome i)).error
       = some ("Invalid phone number: " ++ c.phone)) := by
  have hsplit : (createCampaign cid contacts).recipients
      = [] ++ contacts.map mkRecipient ++ [] := by
    simp [createCampaign]
  obtain ⟨e1, _, _, _, _⟩ :=
    dispatchLoop_spec cid outcome contacts 0 [] []
      (createCampaign cid contacts) mmap hsplit
      (by intro x hx r hr; simp at hr) hd
  have hrecips : (fullRun cid contacts mmap outcome).1.recipients
      = stepRecipients outcome 0 contacts := by
    show (dispatchLoop cid outcome 0 contacts
        (createCampaign cid contacts) mmap).1.recipients = _
    rw [e1]
    simp
  have hget : ∀ j, (fullRun cid contacts mmap outcome).1.recipients[j]?
      = (contacts[j]?).map (fun c' => stepRecipient c' (outcome j)) := by
    intro j
    rw [hrecips, stepRecipients_getElem]
    simp
  refine ⟨rfl, ?_, ?_, ?_, ?_⟩
  · intro j c' hc'
    rw [hget j, hc']
    rfl
  · rw [hget i, hc]
    rfl
  · exact (stepRecipient_invalid c (outcome i) hbad).1
  · exact (stepRecipient_invalid c (outcome i) hbad).2

/-- C6 witness: the scenario-B campaign (three distinct contacts, the second
with an empty phone, all sends succeeding) completes, the second recipient is
failed, and its neighbours are updated to their own step results. -/
theorem c6_failure_isolated_witness :
    (fullRun "w6" scenarioBContacts [] (fun _ => .ok "m8")).1.status
        = .completed ∧
    (fullRun "w6" scenarioBContacts [] (fun _ => .ok "m8")).1.recipients[1]?
        = some (stepRecipient { name := "B", phone := "" }
            ((fun _ => SendOutcome.ok "m8") 1)) ∧
    (stepRecipient { name := "B", phone := "" }
        ((fun _ => SendOutcome.ok "m8") 1)).status = .failed := by
  obtain ⟨h1, h2, h3, h4, h5⟩ :=
    c6_failure_isolated "w6" scenarioBContacts [] (fun _ => .ok "m8")
      (by decide) 1 { name := "B", phone := "" } (by decide) (by decide)
  exact ⟨h1, h3, h4⟩

/-- C9 (amended): during dispatch the loop sleeps a fixed 3000 ms after each
successful send — one sleep event per successfully sent recipient, including
the last one — and no sleep for recipients that fail address validation or
whose send throws.  The delay is not configurable and is not skipped after
the last recipient, as the counterexample shows. -/
theorem c9_sleep_per_successful_send (cid : String) (camp : Campaign)
    (mmap : MsgMap) (contacts : List Contact)
    (outcome : Nat → SendOutcome) :
    ((processRealBroadcast cid camp mmap contacts outcome true
        true).2.2).filter isSleepEvent
      = List.replicate (successCount outcome 0 contacts)
          (Event.sleep 3000) := by
  show ((dispatchLoop cid outcome 0 contacts camp mmap).2.2).filter
      isSleepEvent = _
  exact dispatchLoop_sleeps cid outcome contacts 0 camp mmap

/-- C10: address normalization of the dispatch loop.  The phone is reduced to
its digits; a 10-digit number gets the country code 91 prepended; if the
digit string is empty or the completed number has fewer than 12 or more than
15 digits, the iteration marks the looked-up recipient failed, increments
progress.failed, and performs no send attempt (empty trace); otherwise the
send call targets the completed digit string suffixed with @c.us. -/
theorem c10_address_normalization (cid : String) (camp : Campaign)
    (mmap : MsgMap) (c : Contact) (o : SendOutcome) :
    ((cleanDigits c.phone).length = 0 ∨
        (addCountryCode (cleanDigits c.phone)).length < 12 ∨
        (addCountryCode (cleanDigits c.phone)).length > 15 →
      (processContact cid camp mmap c o).2.2 = [] ∧
      (processContact cid camp mmap c o).1.progress.sent
          = camp.progress.sent ∧
      (processContact cid camp mmap c o).1.progress.failed
          = camp.progress.failed + 1 ∧
      ∀ j, findRecipientIdx camp.recipients c = some j →
        ((processContact cid camp mmap c o).1.recipients[j]?.map
            Recipient.status) = some RStatus.failed) ∧
    (¬ ((cleanDigits c.phone).length = 0 ∨
          (addCountryCode (cleanDigits c.phone)).length < 12 ∨
          (addCountryCode (cleanDigits c.phone)).length > 15) →
      (∀ mid, o = .ok mid →
        (processContact cid camp mmap c o).2.2
          = [Event.sendCall
               (addCountryCode (cleanDigits c.phone) ++ "@c.us"),
             Event.sleep 3000] ∧
        (processContact cid camp mmap c o).1.progress.sent
          = camp.progress.sent + 1) ∧
      (∀ e, o = .sendError e →
        (processContact cid camp mmap c o).2.2
          = [Event.sendCall
               (addCountryCode (cleanDigits c.phone) ++ "@c.us")])) := by
  constructor
  · intro hbad
    by_cases h0 : (cleanDigits c.phone).length = 0
    · refine ⟨by simp [processContact, h0, markFailure],
              by simp [processContact, h0, markFailure],
              by simp [processContact, h0, markFailure], ?_⟩
      intro j hj
      have hlt : j < camp.recipients.length :=
        firstMatchIdx_lt_length _ camp.recipients j hj
      simp [processContact, h0, markFailure, markRecipient, hj,
        modifyAt_getElem_self, List.getElem?_eq_getElem hlt]
    · have h2 : (addCountryCode (cleanDigits c.phone)).length < 12 ∨
          (addCountryCode (cleanDigits c.phone)).length > 15 := by
        rcases hbad with h | h | h
        · exact absurd h h0
        · exact Or.inl h
        · exact Or.inr h
      refine ⟨by simp [processContact, h0, h2, markFailure],
              by simp [processContact, h0, h2, markFailure],
              by simp [processContact, h0, h2, markFailure], ?_⟩
      intro j hj
      have hlt : j < camp.recipients.length :=
        firstMatchIdx_lt_length _ camp.recipients j hj
      simp [processContact, h0, h2, markFailure, markRecipient, hj,
        modifyAt_getElem_self, List.getElem?_eq_getElem hlt]
  · intro hok
    push_neg at hok
    obtain ⟨h0, h2a, h2b⟩ := hok
    have h2 : ¬ ((addCountryCode (cleanDigits c.phone)).length < 12 ∨
        (addCountryCode (cleanDigits c.phone)).length > 15) := by
      omega
    constructor
    · rintro mid rfl
      constructor
      · simp [processContact, h0, h2]
      · simp [processContact, h0, h2]
    · rintro e rfl
      simp [processContact, h0, h2]


/-- C10 witness: a 3-digit phone fails without a send attempt and marks its
recipient failed; a 10-digit phone is sent to the 91-completed address. -/
theorem c10_address_normalization_witness :
    ((processContact "w" (createCampaign "w" [{ name := "B", phone := "123" }])
        [] { name := "B", phone := "123" } (.ok "m")).2.2 = [] ∧
     (processContact "w" (createCampaign "w" [{ name := "B", phone := "123" }])
        [] { name := "B", phone := "123" } (.ok "m")).1.progress.failed
        = (createCampaign "w"
            [{ name := "B", phone := "123" }]).progress.failed + 1 ∧
     ((processContact "w" (createCampaign "w" [{ name := "B", phone := "123" }])
        [] { name := "B", phone := "123" }
        (.ok "m")).1.recipients[0]?.map Recipient.status)
        = some RStatus.failed) ∧
    (processContact "w"
        (createCampaign "w" [{ name := "A", phone := "9876543210" }]) []
        { name := "A", phone := "9876543210" } (.ok "m")).2.2
      = [Event.sendCall
           (addCountryCode (cleanDigits "9876543210") ++ "@c.us"),
         Event.sleep 3000] := by
  constructor
  · obtain ⟨t1, t2, t3, t4⟩ :=
      (c10_address_normalization "w"
        (createCampaign "w" [{ name := "B", phone := "123" }]) []
        { name := "B", phone := "123" } (.ok "m")).1 (by decide)
    exact ⟨t1, t3, t4 0 (by decide)⟩
  · exact ((c10_address_normalization "w"
      (createCampaign "w" [{ name := "A", phone := "9876543210" }]) []
      { name := "A", phone := "9876543210" } (.ok "m")).2 (by decide)).1
      "m" rfl |>.1

end WhatsAppTool
